import Mathlib

/-!
Shallow embedding of the core pipeline of `src/app.py` (a Flask service that
solves batches of coding questions via an external generation API, executes
the generated code, and assembles a report).

String primitives are modelled structurally over `List Char` so that every
definition is executable and kernel-reducible; each mirrors the semantics of
the corresponding Python `str` method used by the source.

External effects are abstracted as parameters:
 - the generation service (`requests.post` at each attempt) becomes a function
   `Nat → Except String Response` from the attempt index to either a raised
   transport exception (`Except.error`) or an HTTP response;
 - the Python `exec` of a generated program becomes a semantics function
   `String → RunOutcome` giving, for a code string, either the text captured
   from stdout/stderr or an uncaught fault with its message.
-/

/-- Character-level test that `p` is an initial segment of `s`
(the semantics of Python `str.startswith`). -/
def chStarts : List Char → List Char → Bool
  | [], _ => true
  | _ :: _, [] => false
  | p :: ps, c :: cs => p == c && chStarts ps cs

/-- Character-level substring occurrence test
(the semantics of the Python `in` operator on strings). -/
def chContainsSub (pat : List Char) : List Char → Bool
  | [] => chStarts pat []
  | c :: cs => chStarts pat (c :: cs) || chContainsSub pat cs

/-- Drop whitespace from both ends (the semantics of Python `str.strip()`). -/
def trimChars (l : List Char) : List Char :=
  ((l.dropWhile Char.isWhitespace).reverse.dropWhile Char.isWhitespace).reverse

/-- Drop whitespace from the right end only (Python `str.rstrip()`); used to
state the right-trimmed wording of the spec, not by the embedded code itself. -/
def rstripChars (l : List Char) : List Char :=
  (l.reverse.dropWhile Char.isWhitespace).reverse

/-- Replace every (left-to-right, non-overlapping) occurrence of `pat` by
`rep` (the semantics of Python `str.replace`), driven by a fuel argument so
the recursion is structural; fuel equal to the length of the scanned list is
always sufficient. -/
def replaceFuel (pat rep : List Char) : Nat → List Char → List Char
  | 0, l => l
  | _ + 1, [] => []
  | n + 1, c :: cs =>
    if chStarts pat (c :: cs) then
      rep ++ replaceFuel pat rep n (List.drop (pat.length - 1) cs)
    else
      c :: replaceFuel pat rep n cs

/-- Split at every newline character, keeping empty segments
(the semantics of the Python split method at the newline separator). -/
def splitNLChars : List Char → List (List Char)
  | [] => [[]]
  | c :: cs =>
    if c == '\n' then [] :: splitNLChars cs
    else
      match splitNLChars cs with
      | [] => [[c]]
      | l :: ls => (c :: l) :: ls

/-- Python `s.startswith(pre)`. -/
def pyStartsWith (s pre : String) : Bool := chStarts pre.data s.data

/-- Python `pat in s`. -/
def pyContains (s pat : String) : Bool := chContainsSub pat.data s.data

/-- Python `s.strip()`. -/
def pyStrip (s : String) : String := ⟨trimChars s.data⟩

/-- Python `s.rstrip()` (right trim only; spec vocabulary, not used by the
embedded source functions). -/
def pyRStrip (s : String) : String := ⟨rstripChars s.data⟩

/-- Python `s.replace(pat, rep)`. -/
def pyReplace (s pat rep : String) : String :=
  ⟨replaceFuel pat.data rep.data s.data.length s.data⟩

/-- Python split of `s` at the newline separator. -/
def pySplitNewline (s : String) : List String :=
  (splitNLChars s.data).map (fun l => ⟨l⟩)

/-- Python newline join of `parts`. -/
def pyJoinNewline : List String → String
  | [] => ""
  | [s] => s
  | s :: rest => s ++ "\n" ++ pyJoinNewline rest

/-- Python `s.lower()`. -/
def pyLower (s : String) : String := ⟨s.data.map Char.toLower⟩

/-- An HTTP response from the generation service as `solve_coding_problem`
consumes it: the status code, the extracted
`choices[0].message.content` body text (empty when absent), and the parsed
`Retry-After` header when present (`None` when the header is absent). -/
structure Response where
  status : Nat
  content : String
  retryAfter : Option Nat
deriving Repr, DecidableEq

/-- Result of one `solve_coding_problem` call, instrumented for the observables
of the spec: the returned string, whether it was returned by the
valid-solution branch (`return solution` at src/app.py:75), how many requests
were issued, and the total seconds slept at rate-limit backoffs. -/
structure SolveOut where
  result : String
  success : Bool
  attempts : Nat
  slept : Nat
deriving Repr, DecidableEq

/-- Outcome of `exec`-ing one code string under
`contextlib.redirect_stdout/redirect_stderr`: the text captured in the
`io.StringIO` buffer when no exception escapes, or the message of the uncaught
exception. -/
inductive RunOutcome where
  | ok (captured : String)
  | fault (msg : String)
deriving Repr, DecidableEq

/-- Failure string returned when the attempt loop of `solve_coding_problem`
ends without a valid solution (src/app.py:86). -/
def EXHAUSTED_MSG : String :=
  "Error: Unable to fetch solution from the API after multiple attempts."

/-- Result string of `execute_code` when the program ran but the captured
buffer stripped to nothing (src/app.py:106). -/
def NO_OUTPUT_MSG : String := "Error: Code execution produced no output."

/-- Question augmentation of src/app.py:50-52: when the question mentions
input or a user, a random number (abstracted as the parameter `rnd`) is fixed
in the prompt text. -/
def augment_question (rnd : Nat) (question : String) : String :=
  if pyContains (pyLower question) "input" || pyContains (pyLower question) "user" then
    question ++ " Assume the user input is " ++ toString rnd ++
      ". The code should NOT prompt for input."
  else
    question

/-- Body cleaning of src/app.py:69-72: the content is stripped, fenced
code-block markers are removed, and the result is stripped again. -/
def processBody (content : String) : String :=
  pyStrip (pyReplace (pyReplace (pyStrip content) "```python" "") "```" "")

/-- The attempt loop of `solve_coding_problem` (src/app.py:64-86), structural
on the remaining attempt budget, with `i` the index of the next request.
Branches mirror the source: transport exception → the except-branch string of
line 89; status 200 → clean the body, return it when non-empty and free of
"input(", otherwise fall through to the next attempt; status 429 → sleep
`Retry-After` (default 1) and retry; any other status → break, which lands on
the line 86 failure string. -/
def solveFrom (service : Nat → Except String Response) : Nat → Nat → SolveOut
  | _, 0 => ⟨EXHAUSTED_MSG, false, 0, 0⟩
  | i, fuel + 1 =>
    match service i with
    | Except.error e => ⟨"Error solving coding problem: " ++ e, false, 1, 0⟩
    | Except.ok r =>
      if r.status == 200 then
        let sol := processBody r.content
        if (sol != "") && !(pyContains sol "input(") then
          ⟨sol, true, 1, 0⟩
        else
          let rest := solveFrom service (i + 1) fuel
          ⟨rest.result, rest.success, rest.attempts + 1, rest.slept⟩
      else if r.status == 429 then
        let rest := solveFrom service (i + 1) fuel
        ⟨rest.result, rest.success, rest.attempts + 1, rest.slept + r.retryAfter.getD 1⟩
      else
        ⟨EXHAUSTED_MSG, false, 1, 0⟩

/-- `solve_coding_problem` (src/app.py:47-89): up to 5 attempts against the
generation service. -/
def solve_coding_problem (service : Nat → Except String Response) : SolveOut :=
  solveFrom service 0 5

/-- `execute_code` (src/app.py:92-110): reject a code string that starts with
"Error" or is empty without consulting the execution semantics; otherwise run
it, strip the captured buffer, and return the text, the no-output message when
the stripped buffer is empty, or the caught-fault message. -/
def execute_code (run : String → RunOutcome) (code : String) : String :=
  if pyStartsWith code "Error" || code == "" then
    "Invalid code returned: " ++ code
  else
    match run code with
    | RunOutcome.ok captured =>
      let result := pyStrip captured
      if result == "" then NO_OUTPUT_MSG else result
    | RunOutcome.fault e => "Error executing code: " ++ e

/-- `extract_text_from_pdf` (src/app.py:36-44) on the per-page extracted
texts: pages whose extraction is empty are skipped, the rest are joined with
newlines and the whole is stripped. -/
def extract_text_from_pdf (pages : List String) : String :=
  pyStrip (pyJoinNewline (pages.filter (fun t => t != "")))

/-- Question list of the `upload_pdf` route (src/app.py:189-190):
a plain newline split of the extracted text. -/
def upload_questions (pages : List String) : List String :=
  pySplitNewline (extract_text_from_pdf pages)

/-- Per-question solve of the batch comprehensions: the service is allowed to
depend on the question (each question gets its own request stream). -/
def solveQ (service : String → Nat → Except String Response) (q : String) : String :=
  (solve_coding_problem (service q)).result

/-- `solutions = [solve_coding_problem(q) for q in questions]`
(src/app.py:191 and :239). -/
def batch_solutions (service : String → Nat → Except String Response)
    (questions : List String) : List String :=
  questions.map (solveQ service)

/-- `final_outputs = [execute_code(sol) for sol in solutions]`
(src/app.py:192 and :240). -/
def batch_outputs (run : String → RunOutcome) (solutions : List String) : List String :=
  solutions.map (execute_code run)

/-- `screenshots = [create_screenshot(output) for output in final_outputs]`
(src/app.py:193 and :241); the image rendering itself is an external
collaborator, abstracted as `shot`. -/
def batch_screenshots {β : Type} (shot : String → β) (outputs : List String) : List β :=
  outputs.map shot

/-- The pairing loop of `generate_word_doc` (src/app.py:150):
`zip(questions, solutions, screenshots)`, one report entry per zipped
triple. -/
def report_entries {β : Type} (questions solutions : List String)
    (screenshots : List β) : List (String × String × β) :=
  questions.zip (solutions.zip screenshots)

/-- The full batch data flow of the `upload_pdf`/`manual_solve` route bodies
from a question list to the report entries. -/
def batch_report {β : Type} (service : String → Nat → Except String Response)
    (run : String → RunOutcome) (shot : String → β)
    (questions : List String) : List (String × String × β) :=
  let solutions := batch_solutions service questions
  let final_outputs := batch_outputs run solutions
  let screenshots := batch_screenshots shot final_outputs
  report_entries questions solutions screenshots

/-- Service that always answers with a hard (non-200, non-429) status. -/
def svc500 : Nat → Except String Response := fun _ => Except.ok ⟨500, "", none⟩

/-- Service whose first body still calls `input()` and whose second is
clean. -/
def svcRetryInput : Nat → Except String Response := fun i =>
  if i == 0 then Except.ok ⟨200, "print(input())", none⟩
  else Except.ok ⟨200, "print(5)", none⟩

/-- Service that rate-limits once with `Retry-After: 2`, then succeeds. -/
def svcRate : Nat → Except String Response := fun i =>
  if i == 0 then Except.ok ⟨429, "", some 2⟩
  else Except.ok ⟨200, "print(7)", none⟩

/-- Execution semantics whose captured buffer has leading whitespace. -/
def runLead : String → RunOutcome := fun _ => RunOutcome.ok "  7"

/-- Execution semantics whose captured buffer has whitespace on both sides. -/
def runBoth : String → RunOutcome := fun _ => RunOutcome.ok " 7 \n"

/-- Execution semantics that always captures `"x"`. -/
def runOkX : String → RunOutcome := fun _ => RunOutcome.ok "x"

/-- Execution semantics that always faults. -/
def runFaultB : String → RunOutcome := fun _ => RunOutcome.fault "boom"

/-! Helper lemmas shared by the claim theorems. -/

/-- A string whose first component is non-empty stays non-empty after
appending. -/
theorem str_append_ne_empty (s t : String) (h : s.data ≠ []) : s ++ t ≠ "" := by
  intro he
  have hd : s.data ++ t.data = ([] : List Char) := congrArg String.data he
  exact h (List.append_eq_nil.mp hd).1

/-- Every string produced by the except-branch of `solve_coding_problem`
starts with the failure marker. -/
theorem startsWith_error_solving (e : String) :
    pyStartsWith ("Error solving coding problem: " ++ e) "Error" = true := rfl

/-- A code string that starts with the failure marker is rejected by
`execute_code` without consulting the execution semantics. -/
theorem execute_code_of_startsError (run : String → RunOutcome) (code : String)
    (h : pyStartsWith code "Error" = true) :
    execute_code run code = "Invalid code returned: " ++ code := by
  unfold execute_code
  simp [h]

/-- Unfolding equation of `solveFrom` at a transport exception. -/
theorem solveFrom_err (service : Nat → Except String Response) (i n : Nat) (e : String)
    (hs : service i = Except.error e) :
    solveFrom service i (n + 1) = ⟨"Error solving coding problem: " ++ e, false, 1, 0⟩ := by
  simp [solveFrom, hs]

/-- Unfolding equation of `solveFrom` at a 200 response with a valid body. -/
theorem solveFrom_200_valid (service : Nat → Except String Response) (i n : Nat) (r : Response)
    (hs : service i = Except.ok r) (h200 : r.status = 200)
    (hne : processBody r.content ≠ "")
    (hni : pyContains (processBody r.content) "input(" = false) :
    solveFrom service i (n + 1) = ⟨processBody r.content, true, 1, 0⟩ := by
  simp [solveFrom, hs, h200, hne, hni]

/-- Unfolding equation of `solveFrom` at a 200 response whose cleaned body is
empty or still contains an interactive-input call. -/
theorem solveFrom_200_invalid (service : Nat → Except String Response) (i n : Nat) (r : Response)
    (hs : service i = Except.ok r) (h200 : r.status = 200)
    (hval : ¬ (processBody r.content ≠ "" ∧ pyContains (processBody r.content) "input(" = false)) :
    solveFrom service i (n + 1) =
      ⟨(solveFrom service (i + 1) n).result, (solveFrom service (i + 1) n).success,
        (solveFrom service (i + 1) n).attempts + 1, (solveFrom service (i + 1) n).slept⟩ := by
  have hb : ((processBody r.content != "") && !(pyContains (processBody r.content) "input(")) = false := by
    rcases Decidable.not_and_iff_or_not.mp hval with h | h
    · simp [bne_iff_ne]
      intro hcontra
      exact absurd hcontra h
    · simp [Bool.not_eq_true] at h ⊢
      intro
      exact h
  simp [solveFrom, hs, h200, hb]

/-- Unfolding equation of `solveFrom` at a 429 response: the backoff sleep is
added and the attempt is counted. -/
theorem solveFrom_429 (service : Nat → Except String Response) (i n : Nat) (r : Response)
    (hs : service i = Except.ok r) (h429 : r.status = 429) :
    solveFrom service i (n + 1) =
      ⟨(solveFrom service (i + 1) n).result, (solveFrom service (i + 1) n).success,
        (solveFrom service (i + 1) n).attempts + 1,
        (solveFrom service (i + 1) n).slept + r.retryAfter.getD 1⟩ := by
  simp [solveFrom, hs, h429]

/-- Unfolding equation of `solveFrom` at any other status: the loop breaks to
the line 86 failure string after this single attempt. -/
theorem solveFrom_hard (service : Nat → Except String Response) (i n : Nat) (r : Response)
    (hs : service i = Except.ok r) (h200 : r.status ≠ 200) (h429 : r.status ≠ 429) :
    solveFrom service i (n + 1) = ⟨EXHAUSTED_MSG, false, 1, 0⟩ := by
  simp [solveFrom, hs, h200, h429]

/-- Whenever `solveFrom` does not end in the valid-solution branch, its result
string starts with the failure marker. -/
theorem solveFrom_failure_error (service : Nat → Except String Response) :
    ∀ fuel i, (solveFrom service i fuel).success = false →
      pyStartsWith (solveFrom service i fuel).result "Error" = true := by
  intro fuel
  induction fuel with
  | zero =>
    intro i _
    simp only [solveFrom]
    decide
  | succ n ih =>
    intro i h
    cases hs : service i with
    | error e =>
      rw [solveFrom_err service i n e hs]
      exact startsWith_error_solving e
    | ok r =>
      by_cases h200 : r.status = 200
      · by_cases hval : processBody r.content ≠ "" ∧
            pyContains (processBody r.content) "input(" = false
        · rw [solveFrom_200_valid service i n r hs h200 hval.1 hval.2] at h
          simp at h
        · rw [solveFrom_200_invalid service i n r hs h200 hval] at h ⊢
          exact ih (i + 1) h
      · by_cases h429 : r.status = 429
        · rw [solveFrom_429 service i n r hs h429] at h ⊢
          exact ih (i + 1) h
        · rw [solveFrom_hard service i n r hs h200 h429]
          decide

/-- Whenever `solveFrom` ends in the valid-solution branch, its result string
is non-empty and free of interactive-input calls. -/
theorem solveFrom_success_valid (service : Nat → Except String Response) :
    ∀ fuel i, (solveFrom service i fuel).success = true →
      (solveFrom service i fuel).result ≠ "" ∧
        pyContains (solveFrom service i fuel).result "input(" = false := by
  intro fuel
  induction fuel with
  | zero =>
    intro i h
    simp [solveFrom] at h
  | succ n ih =>
    intro i h
    cases hs : service i with
    | error e =>
      rw [solveFrom_err service i n e hs] at h
      simp at h
    | ok r =>
      by_cases h200 : r.status = 200
      · by_cases hval : processBody r.content ≠ "" ∧
            pyContains (processBody r.content) "input(" = false
        · rw [solveFrom_200_valid service i n r hs h200 hval.1 hval.2]
          exact hval
        · rw [solveFrom_200_invalid service i n r hs h200 hval] at h ⊢
          exact ih (i + 1) h
      · by_cases h429 : r.status = 429
        · rw [solveFrom_429 service i n r hs h429] at h ⊢
          exact ih (i + 1) h
        · rw [solveFrom_hard service i n r hs h200 h429] at h
          simp at h

/-- Zipping a list with two mapped copies of itself is a single map of
triples. -/
theorem zip_map_map {α β γ : Type} (g : α → β) (h : α → γ) :
    ∀ l : List α, l.zip ((l.map g).zip (l.map h)) = l.map (fun x => (x, g x, h x))
  | [] => rfl
  | x :: xs => by
    simp only [List.map_cons, List.zip_cons_cons]
    rw [zip_map_map g h xs]

/-! Claim theorems. -/

/-- C1: for every input question sequence, the solution, output, and
screenshot sequences produced by the batch comprehensions have the same
length as the questions, and the report pairs the i-th question, in order,
with its own solution and the screenshot of the execution of that solution; no
question is omitted — each position holds whatever string (solution or error
placeholder) its own pipeline produced. -/
theorem batch_report_preserves_length_and_order {β : Type}
    (service : String → Nat → Except String Response) (run : String → RunOutcome)
    (shot : String → β) (questions : List String) :
    (batch_solutions service questions).length = questions.length ∧
    (batch_outputs run (batch_solutions service questions)).length = questions.length ∧
    (batch_screenshots shot (batch_outputs run (batch_solutions service questions))).length
      = questions.length ∧
    (batch_report service run shot questions).length = questions.length ∧
    ∀ i, (batch_report service run shot questions).get? i =
      (questions.get? i).map (fun q =>
        (q, solveQ service q, shot (execute_code run (solveQ service q)))) := by
  have hrep : batch_report service run shot questions =
      questions.map (fun q =>
        (q, solveQ service q, shot (execute_code run (solveQ service q)))) := by
    simp only [batch_report, report_entries, batch_solutions, batch_outputs,
      batch_screenshots, List.map_map]
    exact zip_map_map _ _ questions
  refine ⟨?_, ?_, ?_, ?_, ?_⟩
  · exact List.length_map questions _
  · simp [batch_outputs, batch_solutions]
  · simp [batch_screenshots, batch_outputs, batch_solutions]
  · rw [hrep]; exact List.length_map questions _
  · intro i
    rw [hrep]
    exact List.get?_map _ questions i

/-- C2: whenever `solve_coding_problem` does not return through its
valid-solution branch (budget exhausted, hard status, or transport
exception), the returned string starts with the marker "Error", and
`execute_code` maps it to the invalid-input result without consulting the
execution semantics (the result does not depend on the `run` function at
all). -/
theorem solve_failure_marker_blocks_execution
    (service : Nat → Except String Response) (run run' : String → RunOutcome)
    (h : (solve_coding_problem service).success = false) :
    pyStartsWith (solve_coding_problem service).result "Error" = true ∧
    execute_code run (solve_coding_problem service).result =
      "Invalid code returned: " ++ (solve_coding_problem service).result ∧
    execute_code run (solve_coding_problem service).result =
      execute_code run' (solve_coding_problem service).result := by
  have herr : pyStartsWith (solve_coding_problem service).result "Error" = true :=
    solveFrom_failure_error service 5 0 h
  refine ⟨herr, execute_code_of_startsError run _ herr, ?_⟩
  rw [execute_code_of_startsError run _ herr, execute_code_of_startsError run' _ herr]

/-- Witness for C2: a service answering 500 makes the solver fail; the failed
string starts with "Error" and two arbitrary, distinct execution semantics
agree that it is rejected unexecuted. -/
theorem solve_failure_marker_blocks_execution_witness :
    (solve_coding_problem svc500).success = false ∧
    (pyStartsWith (solve_coding_problem svc500).result "Error" = true ∧
      execute_code runOkX (solve_coding_problem svc500).result =
        "Invalid code returned: " ++ (solve_coding_problem svc500).result ∧
      execute_code runOkX (solve_coding_problem svc500).result =
        execute_code runFaultB (solve_coding_problem svc500).result) :=
  ⟨by decide, solve_failure_marker_blocks_execution svc500 runOkX runFaultB (by decide)⟩

/-- C3: `execute_code` is total and contains every fault: its value is always
one of the invalid-input rejection, the caught-fault failure string carrying
the fault description, or the captured-output result (with the no-output
message for an empty stripped buffer) — a fault of the executed program never
escapes as anything but a returned failure string. -/
theorem execute_code_total_and_fault_contained (run : String → RunOutcome) (code : String) :
    execute_code run code = "Invalid code returned: " ++ code ∨
    (∃ m, run code = RunOutcome.fault m ∧
      execute_code run code = "Error executing code: " ++ m) ∨
    (∃ cap, run code = RunOutcome.ok cap ∧
      execute_code run code = (if pyStrip cap == "" then NO_OUTPUT_MSG else pyStrip cap)) := by
  by_cases hg : (pyStartsWith code "Error" || code == "") = true
  · left
    simp [execute_code, hg]
  · cases hr : run code with
    | ok cap =>
      right; right
      exact ⟨cap, rfl, by simp [execute_code, hg, hr]⟩
    | fault m =>
      right; left
      exact ⟨m, rfl, by simp [execute_code, hg, hr]⟩

/-- C4: a result returned through the valid-solution branch of
`solve_coding_problem` is never empty and never contains the substring
"input(" — a service body containing it is rejected and retried instead of
returned. -/
theorem solve_success_has_no_input_call (service : Nat → Except String Response)
    (h : (solve_coding_problem service).success = true) :
    (solve_coding_problem service).result ≠ "" ∧
    pyContains (solve_coding_problem service).result "input(" = false :=
  solveFrom_success_valid service 5 0 h

/-- Witness for C4: a service whose first body still calls `input()` and
whose second is clean; the solver succeeds on attempt 2 and the returned code
has no interactive-input call. -/
theorem solve_success_has_no_input_call_witness :
    (solve_coding_problem svcRetryInput).success = true ∧
    (solve_coding_problem svcRetryInput).attempts = 2 ∧
    ((solve_coding_problem svcRetryInput).result ≠ "" ∧
      pyContains (solve_coding_problem svcRetryInput).result "input(" = false) :=
  ⟨by decide, by decide, solve_success_has_no_input_call svcRetryInput (by decide)⟩

/-- C5 counterexample: the claim says the captured text is trimmed of
trailing whitespace only; on a program whose captured buffer is `"  7"`
(leading whitespace), `execute_code` returns `"7"`, not the right-trimmed
`"  7"` — the code strips both ends (`.strip()`), not the right end only. -/
theorem execute_code_strips_left_too_cex :
    execute_code runLead "print(7)" = "7" ∧
    pyRStrip "  7" = "  7" ∧
    execute_code runLead "print(7)" ≠ pyRStrip "  7" := by decide

/-- C5 amended: for a non-failing run past the precondition, `execute_code`
returns the captured text stripped of BOTH leading and trailing whitespace;
when the stripped text is empty (the buffer held nothing, or only
whitespace), it returns the distinct produced-no-output string instead. -/
theorem execute_code_output_trimmed_both_sides (run : String → RunOutcome)
    (code cap : String) (hpre : pyStartsWith code "Error" = false) (hne : code ≠ "")
    (hrun : run code = RunOutcome.ok cap) :
    (pyStrip cap ≠ "" → execute_code run code = pyStrip cap) ∧
    (pyStrip cap = "" → execute_code run code = NO_OUTPUT_MSG) := by
  constructor <;> intro h <;> simp [execute_code, hpre, hne, hrun, h]

/-- Witness for C5 amended: a captured buffer `" 7 \n"` comes back as the
stripped text `"7"`. -/
theorem execute_code_output_trimmed_both_sides_witness :
    (pyStartsWith "print(7)" "Error" = false ∧ "print(7)" ≠ "" ∧
      runBoth "print(7)" = RunOutcome.ok " 7 \n") ∧
    ((pyStrip " 7 \n" ≠ "" → execute_code runBoth "print(7)" = pyStrip " 7 \n") ∧
      (pyStrip " 7 \n" = "" → execute_code runBoth "print(7)" = NO_OUTPUT_MSG)) ∧
    execute_code runBoth "print(7)" = "7" :=
  ⟨⟨by decide, by decide, rfl⟩,
    execute_code_output_trimmed_both_sides runBoth "print(7)" " 7 \n"
      (by decide) (by decide) rfl,
    by decide⟩

/-- C6: an empty code string, or one that starts with the failure marker, is
rejected by `execute_code` with the invalid-input result that carries the
upstream string unchanged; the result is independent of the execution
semantics, so no execution (and no buffer write) is ever attempted. -/
theorem execute_code_rejects_error_or_empty (run run' : String → RunOutcome)
    (code : String) (h : code = "" ∨ pyStartsWith code "Error" = true) :
    execute_code run code = "Invalid code returned: " ++ code ∧
    execute_code run code = execute_code run' code := by
  cases h with
  | inl he =>
    subst he
    exact ⟨rfl, rfl⟩
  | inr hs =>
    refine ⟨execute_code_of_startsError run code hs, ?_⟩
    rw [execute_code_of_startsError run code hs, execute_code_of_startsError run' code hs]

/-- Witness for C6: the upstream failure string "Error: upstream" is rejected
unchanged under two different execution semantics. -/
theorem execute_code_rejects_error_or_empty_witness :
    ("Error: upstream" = "" ∨ pyStartsWith "Error: upstream" "Error" = true) ∧
    (execute_code runOkX "Error: upstream" =
        "Invalid code returned: " ++ "Error: upstream" ∧
      execute_code runOkX "Error: upstream" = execute_code runFaultB "Error: upstream") :=
  ⟨Or.inr (by decide),
    execute_code_rejects_error_or_empty runOkX runFaultB "Error: upstream"
      (Or.inr (by decide))⟩

/-- C7: a 429 response makes `solve_coding_problem` sleep for the
`Retry-After` delay (1 when the header is absent) and retry, with the
rate-limited attempt counted against the 5-attempt budget; when the next
response is 200 with a valid body, the call succeeds with exactly 2 attempts
used and exactly the service-specified delay slept. -/
theorem rate_limited_retry_counted_against_budget
    (service : Nat → Except String Response) (c0 c : String) (ra ra1 : Option Nat)
    (h0 : service 0 = Except.ok ⟨429, c0, ra⟩)
    (h1 : service 1 = Except.ok ⟨200, c, ra1⟩)
    (hne : processBody c ≠ "") (hni : pyContains (processBody c) "input(" = false) :
    solve_coding_problem service = ⟨processBody c, true, 2, ra.getD 1⟩ := by
  unfold solve_coding_problem
  rw [solveFrom_429 service 0 4 ⟨429, c0, ra⟩ h0 rfl]
  rw [solveFrom_200_valid service 1 3 ⟨200, c, ra1⟩ h1 rfl hne hni]
  simp

/-- Witness for C7: the simulated service answers 429 with `Retry-After: 2`,
then 200 with body `print(7)`; the call waits 2 time units and succeeds
having used 2 of its 5 attempts. -/
theorem rate_limited_retry_counted_against_budget_witness :
    solve_coding_problem svcRate = ⟨"print(7)", true, 2, 2⟩ := by
  have h := rate_limited_retry_counted_against_budget svcRate "" "print(7)"
    (some 2) none rfl rfl (by decide) (by decide)
  exact h.trans (by decide)

/-- C8: a response whose status is neither 200 nor 429 makes the attempt loop
abort at once: exactly one attempt is consumed, nothing is slept, and the
call returns the failure string. -/
theorem hard_status_aborts_immediately (service : Nat → Except String Response)
    (i fuel : Nat) (r : Response) (hs : service i = Except.ok r)
    (h200 : r.status ≠ 200) (h429 : r.status ≠ 429) (hf : 0 < fuel) :
    solveFrom service i fuel = ⟨EXHAUSTED_MSG, false, 1, 0⟩ := by
  cases fuel with
  | zero => exact absurd hf (by simp)
  | succ n => exact solveFrom_hard service i n r hs h200 h429

/-- Witness for C8: a 500 response on the first attempt of a fresh call makes
the whole 5-attempt budget collapse to a single consumed attempt and the
failure string. -/
theorem hard_status_aborts_immediately_witness :
    solveFrom svc500 0 5 = ⟨EXHAUSTED_MSG, false, 1, 0⟩ :=
  hard_status_aborts_immediately svc500 0 5 ⟨500, "", none⟩ rfl
    (by decide) (by decide) (by decide)

/-- C9 counterexample: the claim says one question per NON-EMPTY line and
that no empty question is dispatched; but a plain newline split of the extracted text keeps empty
lines, so extracted text `"a\n\nb"` (two non-empty lines) yields three
questions, one of them the empty string, and the batch comprehension
dispatches it to the solver like any other. -/
theorem upload_dispatches_empty_question_cex :
    upload_questions ["a\n\nb"] = ["a", "", "b"] ∧
    "" ∈ upload_questions ["a\n\nb"] ∧
    ((upload_questions ["a\n\nb"]).filter (fun q => q != "")).length = 2 ∧
    (upload_questions ["a\n\nb"]).length = 3 ∧
    batch_solutions (fun _ => svc500) (upload_questions ["a\n\nb"]) =
      [EXHAUSTED_MSG, EXHAUSTED_MSG, EXHAUSTED_MSG] := by decide

/-- C9 amended: the `upload_pdf` path hands the pipeline one question per
LINE of the extracted text (empty lines included, each becoming an empty
question string that is dispatched to `solve_coding_problem` like any
other): the dispatched solutions correspond position by position to the
newline-split lines of the extracted text. -/
theorem upload_dispatches_every_line (pages : List String)
    (service : String → Nat → Except String Response) :
    (batch_solutions service (upload_questions pages)).length
      = (upload_questions pages).length ∧
    ∀ i, (batch_solutions service (upload_questions pages)).get? i
      = ((upload_questions pages).get? i).map (solveQ service) :=
  ⟨List.length_map _ _, fun i => List.get?_map _ _ i⟩

/-- C10: `execute_code` never returns the empty string: the invalid-input
result, the captured-output result, the no-output message and the
caught-fault result are all non-empty. -/
theorem execute_code_never_empty (run : String → RunOutcome) (code : String) :
    execute_code run code ≠ "" := by
  by_cases hg : (pyStartsWith code "Error" || code == "") = true
  · simp only [execute_code, if_pos hg]
    exact str_append_ne_empty _ code (by decide)
  · cases hr : run code with
    | ok cap =>
      by_cases hres : (pyStrip cap == "") = true
      · simp only [execute_code, if_neg hg, hr, if_pos hres]
        decide
      · simp only [execute_code, if_neg hg, hr, if_neg hres]
        intro hcontra
        exact hres (by rw [hcontra]; rfl)
    | fault m =>
      simp only [execute_code, if_neg hg, hr]
      exact str_append_ne_empty _ m (by decide)
